import Mathlib

/-!
Shallow embedding of `src/creational_design_patterns/factory.py` (the factory
pattern demo: a `Burgers` enum, an abstract `Burger` product with four concrete
subclasses, and two concrete `BurgerStore`s whose `order_burger` template
method creates a burger and drives it through prepare/cook/serve).

The embedding follows Python semantics for the constructs the file actually
uses: enum member access by attribute name (raising `AttributeError` when no
member has that name), instance attribute dictionaries (an attribute read on an
instance that never had the attribute assigned raises `AttributeError`), and
object construction (`ClassName()` runs `__init__`; a method named `__int__`
is just an ordinary method that nothing in the file ever calls).
-/

set_option autoImplicit false

namespace Factory

/-- Python exceptions raised by the code under study.  Only `AttributeError`
can occur; its payload is the attribute name that failed to resolve. -/
inductive PyError where
  | attributeError (a : String)
deriving DecidableEq, Repr

/-- The members of `class Burgers(Enum)` (source lines 5-9), by member name. -/
inductive Burgers where
  | CHEESEBURGER
  | VEGANBURGER
  | DELUXE_CHEESEBURGER
  | VEGAN
deriving DecidableEq, Repr, Fintype

/-- The string value assigned to each enum member in the source. -/
def Burgers.value : Burgers → String
  | .CHEESEBURGER => "CHEESE"
  | .VEGANBURGER => "VEGANBURGER"
  | .DELUXE_CHEESEBURGER => "DELUXE_CHEESEBURGER"
  | .VEGAN => "VEGAN"

/-- Python attribute access `Burgers.<a>` on the enum class: yields the member
with that name, and raises `AttributeError` when no member is so named. -/
def Burgers.attr : String → Except PyError Burgers
  | "CHEESEBURGER" => .ok .CHEESEBURGER
  | "VEGANBURGER" => .ok .VEGANBURGER
  | "DELUXE_CHEESEBURGER" => .ok .DELUXE_CHEESEBURGER
  | "VEGAN" => .ok .VEGAN
  | a => .error (.attributeError a)

/-- The four concrete subclasses of `Burger` (source lines 35-89). -/
inductive BurgerClass where
  | cheeseBurger
  | veganBurger
  | deluxCheeseBurger
  | deluxVeganBurger
deriving DecidableEq, Repr, Fintype

/-- A `Burger` instance: its concrete class together with its attribute
dictionary.  The only attributes any code in the file could ever assign are
`name`, `bread`, `sauce` and `toppings` (the body of `__int__`), so the dict
is represented by one optional field per attribute; `none` means the instance
dict does not contain that key. -/
structure BurgerObj where
  cls : BurgerClass
  name : Option String
  bread : Option String
  sauce : Option String
  toppings : Option (List String)
deriving DecidableEq, Repr

/-- The display name each concrete class's `__int__` method would assign to
`self.name` (source lines 38, 52, 66, 80). -/
def BurgerClass.intName : BurgerClass → String
  | .cheeseBurger => "Cheese Burger"
  | .veganBurger => "Vegan Burger"
  | .deluxCheeseBurger => "Delux Cheese Burger"
  | .deluxVeganBurger => "Delux Vegan Burger"

/-- Body of `Burger.__int__` (source lines 13-17): sets the four attributes to
their base defaults. -/
def burgerIntBody (self : BurgerObj) : BurgerObj :=
  { self with name := some "", bread := some "", sauce := some "", toppings := some [] }

/-- Body of each concrete class's `__int__` override: `super().__int__()`
followed by the class-specific assignment to `self.name`. -/
def subclassIntBody (c : BurgerClass) (self : BurgerObj) : BurgerObj :=
  { burgerIntBody self with name := some c.intName }

/-- The method names defined by `Burger` and (re)defined by its concrete
subclasses (source lines 12-89).  The initializer is spelled `__int__`, so the
special name `__init__` is NOT among them. -/
def burgerMethodNames : List String :=
  ["__int__", "prepare", "cook", "serve", "get_name"]

/-- Python instantiation `C()`: `object.__new__` makes an instance with an
empty attribute dict, then `__init__` runs.  None of the burger classes define
`__init__` (the initializer is misspelled `__int__`), so the inherited
`object.__init__` runs, a no-op, and the fresh instance has no attributes. -/
def construct (c : BurgerClass) : BurgerObj :=
  let fresh : BurgerObj :=
    { cls := c, name := none, bread := none, sauce := none, toppings := none }
  if burgerMethodNames.contains "__init__" then subclassIntBody c fresh else fresh

/-- `Burger.get_name` (source lines 31-32): `return self.name`.  Reading an
attribute that was never assigned raises `AttributeError`. -/
def BurgerObj.get_name (o : BurgerObj) : Except PyError String :=
  match o.name with
  | some s => .ok s
  | none => .error (.attributeError "name")

/-- Observable events emitted while a store call runs: the `print` on source
line 99 and the three lifecycle calls on lines 100-102 (their bodies are
`pass`, so the call itself is the only observable). -/
inductive Event where
  | printed (s : String)
  | prepared (c : BurgerClass)
  | cooked (c : BurgerClass)
  | served (c : BurgerClass)
deriving DecidableEq, Repr

/-- Outcome of running a piece of the Python code: the events it emitted (in
order) before returning or before an exception escaped, and the result. -/
structure PyRun (α : Type) where
  events : List Event
  result : Except PyError α
deriving Repr

/-- The two concrete store classes (source lines 105-124).  Neither class has
any instance attribute, so a store instance is fully described by its class. -/
inductive StoreClass where
  | cheeseBurgerStore
  | veganBurgerStore
deriving DecidableEq, Repr

/-- `CheeseBurgerStore.create_burger` (source lines 107-113).  Mirrors the
source's control flow: the first condition `item == Burgers.CHEESE` evaluates
the attribute access `Burgers.CHEESE` before comparing, the second evaluates
`Burgers.DELUXECHEESE`; an attribute error escapes the method. -/
def CheeseBurgerStore.create_burger (item : Burgers) : PyRun (Option BurgerObj) :=
  match Burgers.attr "CHEESE" with
  | .error e => ⟨[], .error e⟩
  | .ok m1 =>
    if item = m1 then ⟨[], .ok (some (construct .cheeseBurger))⟩
    else
      match Burgers.attr "DELUXECHEESE" with
      | .error e => ⟨[], .error e⟩
      | .ok m2 =>
        if item = m2 then ⟨[], .ok (some (construct .deluxCheeseBurger))⟩
        else ⟨[], .ok none⟩

/-- `VeganBurgerStore.create_burger` (source lines 118-124).  The first
condition evaluates `Burgers.VEGAN` (which exists), the second evaluates
`Burgers.DELUXEVEGAN` (which does not). -/
def VeganBurgerStore.create_burger (item : Burgers) : PyRun (Option BurgerObj) :=
  match Burgers.attr "VEGAN" with
  | .error e => ⟨[], .error e⟩
  | .ok m1 =>
    if item = m1 then ⟨[], .ok (some (construct .veganBurger))⟩
    else
      match Burgers.attr "DELUXEVEGAN" with
      | .error e => ⟨[], .error e⟩
      | .ok m2 =>
        if item = m2 then ⟨[], .ok (some (construct .deluxVeganBurger))⟩
        else ⟨[], .ok none⟩

/-- Dynamic dispatch of the abstract hook `create_burger` to the concrete
store's implementation. -/
def StoreClass.create_burger : StoreClass → Burgers → PyRun (Option BurgerObj)
  | .cheeseBurgerStore => CheeseBurgerStore.create_burger
  | .veganBurgerStore => VeganBurgerStore.create_burger

/-- `BurgerStore.order_burger` (source lines 97-103), the template method:

    burger = self.create_burger(type)
    print(f"---Making a \x7bburger.get_name()\x7d")
    burger.prepare(); burger.cook(); burger.serve()
    return burger

The f-string argument evaluates `burger.get_name()` before anything is
printed, so an `AttributeError` there (or `burger` being `None`, which has no
`get_name` attribute) escapes with nothing emitted.  Only when `get_name`
succeeds are the print and the three lifecycle calls reached. -/
def order_burger (self : StoreClass) (ty : Burgers) : PyRun (Option BurgerObj) :=
  match self.create_burger ty with
  | ⟨evs, .error e⟩ => ⟨evs, .error e⟩
  | ⟨evs, .ok none⟩ => ⟨evs, .error (.attributeError "get_name")⟩
  | ⟨evs, .ok (some b)⟩ =>
    match b.get_name with
    | .error e => ⟨evs, .error e⟩
    | .ok s =>
      ⟨evs ++ [.printed ("---Making a " ++ s),
        .prepared b.cls, .cooked b.cls, .served b.cls],
       .ok (some b)⟩

/-- Claim C1: the spec says that for every request in a store's supported
subset, `order` returns a non-absent product with the variant's display name
and runs prepare, cook, serve once each in order.  On the code this fails: on
the one supported request the source's enum actually contains (the vegan store
with `Burgers.VEGAN`), `create_burger` does yield a non-absent product, but
`order_burger` raises `AttributeError("name")` while formatting the print
argument — the initializer is misspelled `__int__`, so `self.name` was never
set — and returns nothing, with no lifecycle step ever emitted. -/
theorem c1_supported_request_order_raises :
    (Factory.StoreClass.create_burger .veganBurgerStore .VEGAN).result
        = .ok (some (Factory.construct .veganBurger))
    ∧ (Factory.order_burger .veganBurgerStore .VEGAN).result
        = .error (.attributeError "name")
    ∧ (Factory.order_burger .veganBurgerStore .VEGAN).events = [] := by
  refine ⟨rfl, rfl, rfl⟩

/-- Claim C2: the spec says that for every request outside a store's supported
subset, `order` returns absent (not an error).  On the code this fails: the
cheese store's first branch evaluates the nonexistent member `Burgers.CHEESE`
and the vegan store's second branch evaluates the nonexistent member
`Burgers.DELUXEVEGAN`, so out-of-subset orders raise `AttributeError` instead
of returning `None`; indeed no call to either `create_burger` can ever return
`None`.  (The "no lifecycle step runs" half does hold: the error escapes with
an empty event trace.) -/
theorem c2_unsupported_request_raises_not_absent :
    (Factory.order_burger .cheeseBurgerStore .VEGAN).result
        = .error (.attributeError "CHEESE")
    ∧ (Factory.order_burger .cheeseBurgerStore .VEGAN).events = []
    ∧ (Factory.order_burger .veganBurgerStore .CHEESEBURGER).result
        = .error (.attributeError "DELUXEVEGAN")
    ∧ (Factory.order_burger .veganBurgerStore .CHEESEBURGER).events = []
    ∧ ∀ s : Factory.StoreClass, ∀ b : Factory.Burgers,
        (Factory.StoreClass.create_burger s b).result ≠ .ok none := by
  refine ⟨rfl, rfl, rfl, rfl, ?_⟩
  intro s b
  cases s <;> cases b <;> simp [Factory.StoreClass.create_burger,
    Factory.CheeseBurgerStore.create_burger, Factory.VeganBurgerStore.create_burger,
    Factory.Burgers.attr]

/-- Claim C3: the spec says `CheeseStore.create` maps CHEESE and DELUXE_CHEESE
to products and everything else to absent, without raising.  On the code this
fails for every input: the method's first condition reads `Burgers.CHEESE`,
but the enum's members are CHEESEBURGER, VEGANBURGER, DELUXE_CHEESEBURGER and
VEGAN, so the attribute access raises `AttributeError("CHEESE")` on every
call. -/
theorem c3_cheese_create_always_raises :
    ∀ item : Factory.Burgers,
      (Factory.CheeseBurgerStore.create_burger item).result
        = .error (.attributeError "CHEESE") := by
  intro item
  cases item <;> rfl

/-- Claim C4: the spec says `VeganStore.create` maps VEGAN and DELUXE_VEGAN to
products and everything else to absent, without raising.  On the code only the
VEGAN arm works (yielding an uninitialized `VeganBurger`); the enum has no
DELUXE_VEGAN member at all, and for every non-VEGAN request the second
condition reads the nonexistent `Burgers.DELUXEVEGAN` and raises instead of
returning absent. -/
theorem c4_vegan_create_raises_off_vegan :
    (Factory.VeganBurgerStore.create_burger .VEGAN).result
        = .ok (some (Factory.construct .veganBurger))
    ∧ (Factory.VeganBurgerStore.create_burger .CHEESEBURGER).result
        = .error (.attributeError "DELUXEVEGAN")
    ∧ (Factory.VeganBurgerStore.create_burger .VEGANBURGER).result
        = .error (.attributeError "DELUXEVEGAN")
    ∧ (Factory.VeganBurgerStore.create_burger .DELUXE_CHEESEBURGER).result
        = .error (.attributeError "DELUXEVEGAN") := by
  refine ⟨rfl, rfl, rfl, rfl⟩

/-- Claim C5: the spec says every value of the request enumeration is served
by at least one concrete store.  On the code this fails: for the member
`Burgers.VEGANBURGER` (and likewise CHEESEBURGER and DELUXE_CHEESEBURGER) both
stores raise `AttributeError` from their dead references to nonexistent enum
members, so neither store returns a non-absent product. -/
theorem c5_coverage_fails_on_veganburger :
    (Factory.CheeseBurgerStore.create_burger .VEGANBURGER).result
        = .error (.attributeError "CHEESE")
    ∧ (Factory.VeganBurgerStore.create_burger .VEGANBURGER).result
        = .error (.attributeError "DELUXEVEGAN")
    ∧ (Factory.order_burger .cheeseBurgerStore .VEGANBURGER).result
        = .error (.attributeError "CHEESE")
    ∧ (Factory.order_burger .veganBurgerStore .VEGANBURGER).result
        = .error (.attributeError "DELUXEVEGAN") := by
  refine ⟨rfl, rfl, rfl, rfl⟩

/-- Claim C6: the spec says that whenever `order` obtains a non-absent product
it first emits one notification with the product's display name and then runs
prepare, cook, serve in order, returning the product.  On the code the only
way to obtain a non-absent product is the vegan store with `Burgers.VEGAN`,
and there `order_burger` raises `AttributeError("name")` inside the f-string
before the print executes: the event trace is empty — no notification, no
prepare, no cook, no serve — and no product is returned. -/
theorem c6_nonabsent_product_gets_no_notification_or_lifecycle :
    (Factory.StoreClass.create_burger .veganBurgerStore .VEGAN).result
        = .ok (some (Factory.construct .veganBurger))
    ∧ (Factory.construct .veganBurger).get_name = .error (.attributeError "name")
    ∧ (Factory.order_burger .veganBurgerStore .VEGAN).events = []
    ∧ (Factory.order_burger .veganBurgerStore .VEGAN).result
        = .error (.attributeError "name") := by
  refine ⟨rfl, rfl, rfl, rfl⟩

/-- Claim C7: the spec's scenario `CheeseStore.order(CHEESE)` should return a
product displaying "Cheese Burger".  On the code the scenario cannot even be
posed: the enum has no member named CHEESE (the member is CHEESEBURGER, whose
string value is "CHEESE"), so evaluating `Burgers.CHEESE` raises
`AttributeError`; and the cheese store's `order_burger` raises the same error
for every request that can be passed, never producing a product named
"Cheese Burger". -/
theorem c7_cheese_order_scenario_impossible :
    Factory.Burgers.attr "CHEESE" = .error (.attributeError "CHEESE")
    ∧ Factory.Burgers.value .CHEESEBURGER = "CHEESE"
    ∧ ∀ b : Factory.Burgers,
        (Factory.order_burger .cheeseBurgerStore b).result
          = .error (.attributeError "CHEESE") := by
  refine ⟨rfl, rfl, ?_⟩
  intro b
  cases b <;> rfl

/-- Claim C8: the spec says `get_display_name` is a pure read of a name fixed
at construction, so repeated calls return the same string.  On the code no
name is ever fixed at construction — the initializer is spelled `__int__` and
never runs — so on every freshly constructed product of every concrete class
the call does not return a string at all: it raises `AttributeError("name")`.
(The accessor is deterministic, but the claimed string value never exists.) -/
theorem c8_get_name_returns_no_string_on_fresh_product :
    ∀ c : Factory.BurgerClass,
      (Factory.construct c).get_name = .error (.attributeError "name")
      ∧ (Factory.construct c).name = none := by
  intro c
  cases c <;> exact ⟨rfl, rfl⟩

/-- Claim C9: the spec says two sequential `order` calls each construct and
return a fresh, distinct product.  On the code no `order` call ever returns a
product at all: for every store and every request, `order_burger` raises an
`AttributeError` (either from a nonexistent enum member inside
`create_burger`, or from the unset `name` attribute of the uninitialized
burger), so the two sequential calls of the scenario produce zero product
instances, not two. -/
theorem c9_order_never_returns_any_product :
    ∀ s : Factory.StoreClass, ∀ b : Factory.Burgers,
      ∃ e : Factory.PyError, (Factory.order_burger s b).result = .error e := by
  intro s b
  cases s <;> cases b <;> exact ⟨_, rfl⟩

/-- Claim C10: in every concrete product class the initializer is spelled
`__int__`, a name Python never calls during construction (`__init__` is not
defined anywhere in the hierarchy), so a freshly constructed instance of any
of the four classes has none of the attributes name, bread, sauce, toppings,
and its first `get_name()` call raises `AttributeError` instead of returning a
string. -/
theorem c10_initializer_misspelled_so_attributes_unset :
    ("__int__" ∈ Factory.burgerMethodNames
      ∧ "__init__" ∉ Factory.burgerMethodNames)
    ∧ ∀ c : Factory.BurgerClass,
        (Factory.construct c).name = none
        ∧ (Factory.construct c).bread = none
        ∧ (Factory.construct c).sauce = none
        ∧ (Factory.construct c).toppings = none
        ∧ (Factory.construct c).get_name = .error (.attributeError "name") := by
  refine ⟨⟨by simp [Factory.burgerMethodNames], by simp [Factory.burgerMethodNames]⟩, ?_⟩
  intro c
  cases c <;> exact ⟨rfl, rfl, rfl, rfl, rfl⟩

end Factory
